import Mathlib

/-!
Verification of the ContextFreeGrammars front-end against its design document.

The development shallowly embeds the two source files:

* `source/grammar/lockable_type.py` — the `LockableType` "lock-once" discipline
  (mutable while unlocked, then frozen with cached string rendering, cached
  length, and a string-derived hash).
* `source/grammar/tree_transformer.py` — the `ChomskyGrammarTreeTransformer`
  bottom-up tree visitor that assembles `Terminal`, `NonTerminal` and
  `Production` values from a tagged parse tree.

The `Terminal` / `NonTerminal` / `Production` classes (`symbols.py`,
`production.py`) and `get_unique_hash` (`utilities.py`) are not part of the
sources; where they decide a claim they are modelled from the design document
and each such definition carries a doc comment starting
`Modelled from the spec:`.

Python objects are embedded with value semantics: a method that mutates the
receiver becomes a function returning the next state, and a method that raises
becomes a function returning `Except e` (raising leaves the receiver
unchanged, since the exception in the source is thrown before any mutation).
-/

namespace ContextFreeGrammars

/-! ## `LockableType` (source/grammar/lockable_type.py) -/

/-- Python's builtin deterministic string hash, as used by
`self._hash = hash( self._str() )` in `LockableType.lock`.  The claims only
depend on it being a fixed total function of the string, so any concrete
deterministic hash is a faithful model; truncation models CPython's
fixed-width hash values. -/
def strHash (s : String) : Nat :=
  s.data.foldl (fun h c => (h * 31 + c.toNat) % 18446744073709551616) 7

/-- The error raised by `LockableType.__setattr__` when `self.locked` is true:
`AttributeError( "Attributes cannot be changed after locked is set to True!" )`. -/
inductive LockableError where
  | attributeError : LockableError
deriving DecidableEq

/-- The error raised by `LockableType.__eq__` when the other operand is not a
`LockableType`: `TypeError( "'=' not supported between instances of ..." )`. -/
inductive CompareError where
  | typeError : CompareError
deriving DecidableEq

/-- State of a `LockableType` object.  `α` is the concrete variant's own
attribute record (a `Terminal`'s text, a `Production`'s symbol list, ...);
`render` and `lengthOf` are the variant-supplied `_original_str` and
`_original_len` methods captured at `__init__`.  `str`, `len` and `hashValue`
are the `self.str`, `self.len` and `self._hash` attributes; `originalHash` is
`self._original_hash`.  The `lock`-time reassignment of `_str`/`_len` to
cache-returning lambdas is modelled by dispatching on `locked` in
`LockableType.strOf` / `LockableType.lenOf`: `lock` installs the lambdas
exactly when it sets `locked` and `unlock` restores the originals exactly when
it clears it, so the active strategy coincides with the flag. -/
structure LockableType (α : Type) where
  render : α → String
  lengthOf : α → Nat
  locked : Bool
  str : String
  len : Nat
  hashValue : Nat
  originalHash : Nat
  content : α

namespace LockableType

/-- `LockableType.__init__`: starts unlocked with an empty cached string and a
hash taken from `get_unique_hash()`.  Modelled from the spec: `utilities.py`
is not under the sources; the design document describes `get_unique_hash` as
"a process-unique identity token assigned at construction", so the token is a
parameter `idHash` and process-uniqueness becomes a hypothesis where a claim
needs it.  (`self.len` does not exist before the first `lock`; the field is
initialised to `0` and is inert while unlocked.) -/
def init (render : α → String) (lengthOf : α → Nat) (content : α) (idHash : Nat) :
    LockableType α :=
  { render := render
    lengthOf := lengthOf
    locked := false
    str := ""
    len := 0
    hashValue := idHash
    originalHash := idHash
    content := content }

/-- `LockableType.__setattr__(name, value)`: raises `AttributeError` when
`self.locked`, otherwise performs the attribute update.  The update of the
variant's attributes is an arbitrary function `f` on the attribute record,
covering any attribute name and any value.  The returned pair is the object
state after the call together with the raised error, if any: raising happens
before any mutation, so the error case returns the receiver unchanged. -/
def setattr (x : LockableType α) (f : α → α) :
    LockableType α × Option LockableError :=
  if x.locked then (x, some .attributeError)
  else ({ x with content := f x.content }, none)

/-- `str(self)` = `self.__str__()` = `self._str()`: the cached `self.str` once
`lock` has installed the caching lambda, the variant's own rendering
otherwise. -/
def strOf (x : LockableType α) : String :=
  if x.locked then x.str else x.render x.content

/-- `len(self)` = `self.__len__()` = `self._len()`: the cached `self.len` once
`lock` has installed the caching lambda, the variant's own length otherwise. -/
def lenOf (x : LockableType α) : Nat :=
  if x.locked then x.len else x.lengthOf x.content

/-- `LockableType.__hash__`: returns `self._hash`. -/
def hashOf (x : LockableType α) : Nat :=
  x.hashValue

/-- `LockableType.lock`: no-op when already locked; otherwise caches
`self.str = str(self)` and `self.len = len(self)` (computed by the original
variant methods, since the caching lambdas are installed only afterwards),
recomputes `self._hash = hash( self._str() )` from the fresh cache, and sets
`locked`. -/
def lock (x : LockableType α) : LockableType α :=
  if x.locked then x
  else
    let s := x.render x.content
    let l := x.lengthOf x.content
    { x with str := s, len := l, hashValue := strHash s, locked := true }

/-- `LockableType.unlock`: no-op when not locked; otherwise clears `locked`
(via `self.__dict__` to bypass `__setattr__`), restores `_len`/`_str` to the
originals (modelled by the `locked` dispatch in `strOf`/`lenOf`; the stale
`self.str`/`self.len` attributes are kept but no longer consulted, exactly as
in the source) and restores `self._hash = self._original_hash`. -/
def unlock (x : LockableType α) : LockableType α :=
  if x.locked then
    { x with locked := false, hashValue := x.originalHash }
  else x

/-- `LockableType.new(unlocked)`: `copy.deepcopy( self )` followed by
`unlock()` or `lock()` on the copy.  Under value semantics a deep copy is the
value itself; the copy's state is then adjusted by the chosen call. -/
def new (x : LockableType α) (unlocked : Bool) : LockableType α :=
  if unlocked then x.unlock else x.lock

/-- The `other` operand of `LockableType.__eq__`: either another
`LockableType` object (of any concrete variant, with attribute record `β`) or
an arbitrary non-`LockableType` value, identified by its class name. -/
inductive Operand (β : Type) where
  | lockable : LockableType β → Operand β
  | nonLockable : String → Operand β

/-- `LockableType.__eq__(other)`: since `isinstance( self, LockableType )` is
always true, the guard `isinstance( self, LockableType ) is
isinstance( other, LockableType )` holds exactly when `other` is a
`LockableType`, in which case the result is `hash( self ) == hash( other )`;
otherwise a `TypeError` is raised. -/
def eq (x : LockableType α) (other : Operand β) : Except CompareError Bool :=
  match other with
  | .lockable y => .ok (x.hashOf == y.hashOf)
  | .nonLockable _ => .error .typeError

end LockableType

/-! ## Symbol and Production model (`symbols.py` / `production.py`, not under
the sources; modelled from the design document) -/

/-- Modelled from the spec: `symbols.py` is not under the sources.  A `Symbol`
is "polymorphic over variants `Terminal`, `NonTerminal`: an immutable-once-
frozen wrapper around a text payload"; `Terminal(text)` / `NonTerminal(text)`
"take a raw text payload; the rendering rule is return the payload
unchanged". -/
inductive Symbol where
  | terminal : String → Symbol
  | nonTerminal : String → Symbol
deriving DecidableEq

/-- Modelled from the spec: the `Symbol` rendering rule, "return the payload
unchanged". -/
def Symbol.str : Symbol → String
  | .terminal t => t
  | .nonTerminal t => t

/-- Modelled from the spec: `Symbol` equality — "two symbols compare equal
only if both variant tag and rendered text match". -/
def Symbol.eq : Symbol → Symbol → Bool
  | .terminal a, .terminal b => a == b
  | .nonTerminal a, .nonTerminal b => a == b
  | .terminal _, .nonTerminal _ => false
  | .nonTerminal _, .terminal _ => false

/-- Modelled from the spec: `production.py` is not under the sources.  A
`Production` is "an ordered sequence of Symbol values", itself a Freezable
Value (hence the `locked` flag); a fresh `Production()` is unlocked and
empty. -/
structure Production where
  symbols : List Symbol
  locked : Bool
deriving DecidableEq

/-- Modelled from the spec: the fresh, still-mutable `Production()` created by
a transformer handler. -/
def Production.empty : Production :=
  { symbols := [], locked := false }

/-- Modelled from the spec: `Production.add(symbol)` "appended (via Freezable
Value's mutable `add`)" — appends the symbol to the ordered sequence.  The
rejection of `add` on a frozen value is the `LockableType.setattr` discipline,
verified at that layer; the handlers below only ever `add` to a production
they have just created unlocked. -/
def Production.add (p : Production) (s : Symbol) : Production :=
  { p with symbols := p.symbols ++ [s] }

/-- Modelled from the spec: the `Production` rendering rule, "concatenation of
its member symbols' renderings in order". -/
def Production.str (p : Production) : String :=
  String.join (p.symbols.map Symbol.str)

/-! ## Tree transformer (source/grammar/tree_transformer.py) -/

/-- A child of a parse-tree node as seen by a handler of
`ChomskyGrammarTreeTransformer`: a raw token of the external parser (a
string), or a value already converted by this same transformation. -/
inductive Child where
  | token : String → Child
  | symbol : Symbol → Child
  | production : Production → Child
deriving DecidableEq

/-- Python's `str( _symbol )` on a handler child: a token is its text, a
converted value renders by its own rule. -/
def Child.str : Child → String
  | .token t => t
  | .symbol s => s.str
  | .production p => p.str

/-- Errors of the transformation.  `unrecognizedTag` is the spec's
`UnrecognizedTagError`, `malformedChild` its `MalformedChildError`,
`indexError` the `production[0]` lookup failing on an empty child list. -/
inductive TransformError where
  | unrecognizedTag : String → TransformError
  | malformedChild : TransformError
  | indexError : TransformError
deriving DecidableEq

/-- The value a transformer handler returns for a node. -/
inductive TransformResult where
  | symbol : Symbol → TransformResult
  | production : Production → TransformResult
deriving DecidableEq

namespace ChomskyGrammarTreeTransformer

/-- `ChomskyGrammarTreeTransformer._parse_symbol(_terminal, default)`: when
the child token list is non-empty, `Terminal( _terminal )` — modelled from the
spec, since `symbols.py` is not under the sources: "if the external parser
supplied a non-empty literal text, that exact text is used verbatim as the
Terminal payload", so the constructor uses the tokens' literal text (for the
single token these leaf tags carry, exactly that text); when the token list is
empty, `Terminal( default )`. -/
def parseSymbol (tokens : List String) (default : String) : Symbol :=
  if tokens.length ≠ 0 then .terminal (String.join tokens)
  else .terminal default

/-- `ChomskyGrammarTreeTransformer._parse_symbols(_symbols, Type)`: renders
each child with `str`, joins the results with `"".join`, and wraps the
concatenation in the symbol constructor passed as `Type`. -/
def parseSymbols (symbols : List Child) (typ : String → Symbol) : Symbol :=
  typ (String.join (symbols.map Child.str))

/-- `ChomskyGrammarTreeTransformer.terminal`. -/
def terminal (terminals : List Child) : Symbol :=
  parseSymbols terminals Symbol.terminal

/-- `ChomskyGrammarTreeTransformer.non_terminal`. -/
def non_terminal (nonTerminals : List Child) : Symbol :=
  parseSymbols nonTerminals Symbol.nonTerminal

/-- `ChomskyGrammarTreeTransformer.epsilon`. -/
def epsilon (t : List String) : Symbol := parseSymbol t "&"

/-- `ChomskyGrammarTreeTransformer.quote`. -/
def quote (t : List String) : Symbol := parseSymbol t "'"

/-- `ChomskyGrammarTreeTransformer.minus`. -/
def minus (t : List String) : Symbol := parseSymbol t "-"

/-- `ChomskyGrammarTreeTransformer.plus`. -/
def plus (t : List String) : Symbol := parseSymbol t "+"

/-- `ChomskyGrammarTreeTransformer.star`. -/
def star (t : List String) : Symbol := parseSymbol t "*"

/-- `ChomskyGrammarTreeTransformer.comma`. -/
def comma (t : List String) : Symbol := parseSymbol t ","

/-- `ChomskyGrammarTreeTransformer.colon`. -/
def colon (t : List String) : Symbol := parseSymbol t ":"

/-- `ChomskyGrammarTreeTransformer.dot`. -/
def dot (t : List String) : Symbol := parseSymbol t "."

/-- `ChomskyGrammarTreeTransformer.double_quote`. -/
def double_quote (t : List String) : Symbol := parseSymbol t "\""

/-- `ChomskyGrammarTreeTransformer.percentage`. -/
def percentage (t : List String) : Symbol := parseSymbol t "%"

/-- `ChomskyGrammarTreeTransformer.dollar`. -/
def dollar (t : List String) : Symbol := parseSymbol t "$"

/-- `ChomskyGrammarTreeTransformer.at_sign`. -/
def at_sign (t : List String) : Symbol := parseSymbol t "@"

/-- `ChomskyGrammarTreeTransformer.sharp`. -/
def sharp (t : List String) : Symbol := parseSymbol t "#"

/-- `ChomskyGrammarTreeTransformer.exclamation`. -/
def exclamation (t : List String) : Symbol := parseSymbol t "!"

/-- `ChomskyGrammarTreeTransformer.backtick`. -/
def backtick (t : List String) : Symbol := parseSymbol t "`"

/-- `ChomskyGrammarTreeTransformer.tick`. -/
def tick (t : List String) : Symbol := parseSymbol t "´"

/-- `ChomskyGrammarTreeTransformer.caret`. -/
def caret (t : List String) : Symbol := parseSymbol t "^"

/-- `ChomskyGrammarTreeTransformer.tilde`. -/
def tilde (t : List String) : Symbol := parseSymbol t "~"

/-- `ChomskyGrammarTreeTransformer.question`. -/
def question (t : List String) : Symbol := parseSymbol t "?"

/-- `ChomskyGrammarTreeTransformer.equals`. -/
def equals (t : List String) : Symbol := parseSymbol t "="

/-- `ChomskyGrammarTreeTransformer.semicolon`. -/
def semicolon (t : List String) : Symbol := parseSymbol t ";"

/-- `ChomskyGrammarTreeTransformer.slash`. -/
def slash (t : List String) : Symbol := parseSymbol t "/"

/-- `ChomskyGrammarTreeTransformer.backslash`. -/
def backslash (t : List String) : Symbol := parseSymbol t "\\"

/-- `ChomskyGrammarTreeTransformer.open_paren`. -/
def open_paren (t : List String) : Symbol := parseSymbol t "("

/-- `ChomskyGrammarTreeTransformer.close_paren`. -/
def close_paren (t : List String) : Symbol := parseSymbol t ")"

/-- `ChomskyGrammarTreeTransformer.open_bracket`. -/
def open_bracket (t : List String) : Symbol := parseSymbol t "["

/-- `ChomskyGrammarTreeTransformer.close_bracket`. -/
def close_bracket (t : List String) : Symbol := parseSymbol t "]"

/-- `ChomskyGrammarTreeTransformer.open_brace`. -/
def open_brace (t : List String) : Symbol := parseSymbol t "\x7b"

/-- `ChomskyGrammarTreeTransformer.close_brace`. -/
def close_brace (t : List String) : Symbol := parseSymbol t "\x7d"

/-- The body of the loop in `ChomskyGrammarTreeTransformer.production`: a
child that is a `Terminal` or a `NonTerminal`
(`isinstance( production, ( Terminal, NonTerminal ) )`) is added to the
production under construction; every other child is skipped. -/
def productionStep (acc : Production) (c : Child) : Production :=
  match c with
  | .symbol s => acc.add s
  | _ => acc

/-- `ChomskyGrammarTreeTransformer.production(productions)`: creates a fresh
`Production()` and appends, in order, exactly those children that are a
`Terminal` or a `NonTerminal`; every other child is skipped by the loop. -/
def production (productions : List Child) : Production :=
  productions.foldl productionStep Production.empty

/-- `ChomskyGrammarTreeTransformer.non_terminal_start(non_terminal)`: creates
a fresh `Production()` and adds `non_terminal[0]`.  `production[0]` on an
empty child list raises `IndexError`; `Production.add` of a non-symbol child
is the spec's `MalformedChildError` (the start tag "wraps a single
NonTerminal"). -/
def non_terminal_start (nonTerminal : List Child) : Except TransformError Production :=
  match nonTerminal with
  | [] => .error .indexError
  | .symbol s :: _ => .ok (Production.empty.add s)
  | _ :: _ => .error .malformedChild

end ChomskyGrammarTreeTransformer

/-- The tag vocabulary of `ChomskyGrammarTreeTransformer`: exactly the handler
methods defined on the class in `tree_transformer.py`. -/
def recognizedTags : List String :=
  ["non_terminal_start", "terminal", "non_terminal", "epsilon", "quote",
   "minus", "plus", "star", "comma", "colon", "dot", "double_quote",
   "percentage", "dollar", "at_sign", "sharp", "exclamation", "backtick",
   "tick", "caret", "tilde", "question", "equals", "semicolon", "slash",
   "backslash", "open_paren", "close_paren", "open_bracket", "close_bracket",
   "open_brace", "close_brace", "production"]

open ChomskyGrammarTreeTransformer in
/-- The tag-to-handler table of `ChomskyGrammarTreeTransformer`: one entry per
handler method defined on the class, keyed by the method's name (the tag the
external parser dispatches on).  Leaf meta-character handlers receive their
children's literal text. -/
def tagHandlerList :
    List (String × (List Child → Except TransformError TransformResult)) :=
  [("non_terminal_start", fun cs => (non_terminal_start cs).map .production),
   ("terminal", fun cs => .ok (.symbol (terminal cs))),
   ("non_terminal", fun cs => .ok (.symbol (non_terminal cs))),
   ("epsilon", fun cs => .ok (.symbol (epsilon (cs.map Child.str)))),
   ("quote", fun cs => .ok (.symbol (quote (cs.map Child.str)))),
   ("minus", fun cs => .ok (.symbol (minus (cs.map Child.str)))),
   ("plus", fun cs => .ok (.symbol (plus (cs.map Child.str)))),
   ("star", fun cs => .ok (.symbol (star (cs.map Child.str)))),
   ("comma", fun cs => .ok (.symbol (comma (cs.map Child.str)))),
   ("colon", fun cs => .ok (.symbol (colon (cs.map Child.str)))),
   ("dot", fun cs => .ok (.symbol (dot (cs.map Child.str)))),
   ("double_quote", fun cs => .ok (.symbol (double_quote (cs.map Child.str)))),
   ("percentage", fun cs => .ok (.symbol (percentage (cs.map Child.str)))),
   ("dollar", fun cs => .ok (.symbol (dollar (cs.map Child.str)))),
   ("at_sign", fun cs => .ok (.symbol (at_sign (cs.map Child.str)))),
   ("sharp", fun cs => .ok (.symbol (sharp (cs.map Child.str)))),
   ("exclamation", fun cs => .ok (.symbol (exclamation (cs.map Child.str)))),
   ("backtick", fun cs => .ok (.symbol (backtick (cs.map Child.str)))),
   ("tick", fun cs => .ok (.symbol (tick (cs.map Child.str)))),
   ("caret", fun cs => .ok (.symbol (caret (cs.map Child.str)))),
   ("tilde", fun cs => .ok (.symbol (tilde (cs.map Child.str)))),
   ("question", fun cs => .ok (.symbol (question (cs.map Child.str)))),
   ("equals", fun cs => .ok (.symbol (equals (cs.map Child.str)))),
   ("semicolon", fun cs => .ok (.symbol (semicolon (cs.map Child.str)))),
   ("slash", fun cs => .ok (.symbol (slash (cs.map Child.str)))),
   ("backslash", fun cs => .ok (.symbol (backslash (cs.map Child.str)))),
   ("open_paren", fun cs => .ok (.symbol (open_paren (cs.map Child.str)))),
   ("close_paren", fun cs => .ok (.symbol (close_paren (cs.map Child.str)))),
   ("open_bracket", fun cs => .ok (.symbol (open_bracket (cs.map Child.str)))),
   ("close_bracket", fun cs => .ok (.symbol (close_bracket (cs.map Child.str)))),
   ("open_brace", fun cs => .ok (.symbol (open_brace (cs.map Child.str)))),
   ("close_brace", fun cs => .ok (.symbol (close_brace (cs.map Child.str)))),
   ("production", fun cs => .ok (.production (production cs)))]

/-- Looking a tag up in the handler table. -/
def tagTable (tag : String) :
    Option (List Child → Except TransformError TransformResult) :=
  tagHandlerList.lookup tag

/-- Modelled from the spec: the tag dispatch itself lives in the external
parsing engine's visitor base class (`lark.Transformer`), outside this
repository's sources; the design document fixes its failure contract — "the
tree transformer receives a tag with no table entry" raises
`UnrecognizedTagError`, which "must not be swallowed or defaulted".
Transforming one node looks the tag up in the handler table and applies the
handler; a tag with no entry yields the error and nothing else. -/
def transformNode (tag : String) (children : List Child) :
    Except TransformError TransformResult :=
  match tagTable tag with
  | some handler => handler children
  | none => .error (.unrecognizedTag tag)

/-! ## Concrete instances used by the witnesses -/

/-- A concrete `LockableType` instance for witnesses: a `Terminal`-like value
whose attribute record is its text payload, rendered unchanged. -/
def sampleValue : LockableType String :=
  LockableType.init (fun s => s) String.length "ab" 5

/-- The locked state of `sampleValue`. -/
def sampleLocked : LockableType String :=
  sampleValue.lock

/-- A concrete `LockableType` instance of a different attribute-record type
(a different concrete class) that renders to the same text as
`sampleValue`. -/
def sampleOther : LockableType Nat :=
  LockableType.init (fun _ => "ab") (fun _ => 2) 0 6

/-! ## Claims -/

/-- Claim C1: for every `LockableType` value whose `locked` flag is true, any
attribute assignment (any name, any value — an arbitrary update `f` of the
attribute record) raises the locked-mutation `AttributeError` and leaves the
object unchanged; for every value whose flag is false the assignment succeeds
and the new attribute value is what the next `lock()` caches. -/
theorem claim_C1 {α : Type} (x : LockableType α) (f : α → α) :
    (x.locked = true → x.setattr f = (x, some LockableError.attributeError)) ∧
    (x.locked = false →
      (x.setattr f).2 = none ∧
      (x.setattr f).1.content = f x.content ∧
      ((x.setattr f).1.lock).str = x.render (f x.content) ∧
      ((x.setattr f).1.lock).strOf = x.render (f x.content)) := by
  constructor
  · intro h
    simp [LockableType.setattr, h]
  · intro h
    simp [LockableType.setattr, LockableType.lock, LockableType.strOf, h]

/-- Witness for C1 at concrete inputs: mutation on the locked `sampleLocked`
errors and leaves it unchanged; mutation on the unlocked `sampleValue`
succeeds and the next `lock` caches the new text. -/
theorem claim_C1_witness :
    (sampleLocked.locked = true ∧
      sampleLocked.setattr (fun _ => "cd") =
        (sampleLocked, some LockableError.attributeError)) ∧
    (sampleValue.locked = false ∧
      ((sampleValue.setattr (fun _ => "cd")).1.lock).str = "cd") :=
  ⟨⟨rfl, (claim_C1 sampleLocked (fun _ => "cd")).1 rfl⟩,
   ⟨rfl, ((claim_C1 sampleValue (fun _ => "cd")).2 rfl).2.2.1⟩⟩

/-- Claim C5: `Terminal(t)` is never equal to `NonTerminal(t)` although their
rendered text is identical, and `Terminal(t) == Terminal(t2)` exactly when
`t = t2` (Symbol equality modelled from the spec, `symbols.py` not being
under the sources). -/
theorem claim_C5 (t t2 : String) :
    Symbol.eq (.terminal t) (.nonTerminal t) = false ∧
    (Symbol.terminal t).str = (Symbol.nonTerminal t).str ∧
    (Symbol.eq (.terminal t) (.terminal t2) = true ↔ t = t2) := by
  refine ⟨rfl, rfl, ?_⟩
  simp [Symbol.eq]

/-- Witness for C5 at concrete inputs. -/
theorem claim_C5_witness :
    Symbol.eq (.terminal "a") (.nonTerminal "a") = false ∧
    Symbol.eq (.terminal "a") (.terminal "a") = true :=
  ⟨(claim_C5 "a" "a").1, (claim_C5 "a" "a").2.2.mpr rfl⟩

/-- Claim C6: `new(unlocked)` is a deep copy followed by `unlock()` or
`lock()` on the copy (under value semantics the copy is the value itself,
storage independence not being observable): with `unlocked = true` the result
is unlocked and admits further mutation even when the source is locked; with
`unlocked = false` the result is locked, so mutation on it fails, and when the
source was unlocked its caches are freshly derived on the copy. -/
theorem claim_C6 {α : Type} (x : LockableType α) (f : α → α) :
    x.new true = x.unlock ∧
    x.new false = x.lock ∧
    (x.new true).locked = false ∧
    ((x.new true).setattr f).2 = none ∧
    (x.new false).locked = true ∧
    (x.new false).setattr f = (x.new false, some LockableError.attributeError) ∧
    (x.locked = false → (x.new false).str = x.render x.content) := by
  refine ⟨rfl, rfl, ?_⟩
  cases h : x.locked <;>
    simp [LockableType.new, LockableType.unlock, LockableType.lock,
      LockableType.setattr, h]

/-- Witness for C6 at concrete inputs: the copy of the locked `sampleLocked`
taken unlocked accepts mutation; the copy of the unlocked `sampleValue` taken
locked rejects it and carries a freshly derived cache. -/
theorem claim_C6_witness :
    ((sampleLocked.new true).setattr (fun _ => "cd")).2 = none ∧
    (sampleValue.new false).setattr (fun _ => "cd") =
      (sampleValue.new false, some LockableError.attributeError) ∧
    (sampleValue.locked = false ∧ (sampleValue.new false).str = "ab") :=
  ⟨(claim_C6 sampleLocked (fun _ => "cd")).2.2.2.1,
   (claim_C6 sampleValue (fun _ => "cd")).2.2.2.2.2.1,
   ⟨rfl, (claim_C6 sampleValue (fun _ => "cd")).2.2.2.2.2.2 rfl⟩⟩

/-- Claim C7: on a locked value left otherwise unchanged (any value locked
from an unlocked state `y`), `unlock()` then `lock()` reproduces exactly the
state it had before unlocking — in particular the same cached rendering,
cached length and hash; `unlock()` restores the identity-based
`_original_hash` while the value is unlocked, and `unlock()` is a no-op on an
already-unlocked value. -/
theorem claim_C7 {α : Type} (y : LockableType α) (h : y.locked = false) :
    y.lock.unlock.lock = y.lock ∧
    y.lock.unlock.hashValue = y.originalHash ∧
    y.lock.unlock.locked = false ∧
    y.unlock = y ∧
    y.lock.unlock.lock.str = y.lock.str ∧
    y.lock.unlock.lock.len = y.lock.len ∧
    y.lock.unlock.lock.hashValue = y.lock.hashValue := by
  simp [LockableType.lock, LockableType.unlock, h]

/-- Witness for C7 at a concrete input. -/
theorem claim_C7_witness :
    sampleValue.locked = false ∧
    sampleValue.lock.unlock.lock = sampleValue.lock ∧
    sampleValue.lock.unlock.hashValue = sampleValue.originalHash :=
  ⟨rfl, (claim_C7 sampleValue rfl).1, (claim_C7 sampleValue rfl).2.1⟩

/-- Claim C9: equality between a `LockableType` value and any operand that is
not a `LockableType` raises a `TypeError` (it is never answered `false`),
while equality between two `LockableType` operands never raises — it returns
the boolean hash comparison. -/
theorem claim_C9 {α β : Type} (x : LockableType α) (y : LockableType β)
    (className : String) :
    x.eq (LockableType.Operand.nonLockable (β := β) className) =
      Except.error CompareError.typeError ∧
    x.eq (LockableType.Operand.lockable y) = Except.ok (x.hashOf == y.hashOf) :=
  ⟨rfl, rfl⟩

/-- Claim C10: at the `LockableType` layer, equality between two
`LockableType` values holds exactly when their current hashes coincide;
consequently two freshly constructed (unlocked) values with distinct
process-unique identity tokens never compare equal, while two locked values
whose renderings coincide compare equal even across different concrete
classes (different attribute-record types). -/
theorem claim_C10 :
    (∀ {α β : Type} (x : LockableType α) (y : LockableType β),
      x.eq (LockableType.Operand.lockable y) = Except.ok true ↔
        x.hashOf = y.hashOf) ∧
    (∀ {α β : Type} (r : α → String) (l : α → Nat) (c : α) (i : Nat)
        (r2 : β → String) (l2 : β → Nat) (c2 : β) (i2 : Nat),
      i ≠ i2 →
      (LockableType.init r l c i).eq
          (LockableType.Operand.lockable (LockableType.init r2 l2 c2 i2)) =
        Except.ok false) ∧
    (∀ {α β : Type} (x : LockableType α) (y : LockableType β),
      x.locked = false → y.locked = false →
      x.render x.content = y.render y.content →
      x.lock.eq (LockableType.Operand.lockable y.lock) = Except.ok true) := by
  refine ⟨?_, ?_, ?_⟩
  · intro α β x y
    simp [LockableType.eq, LockableType.hashOf]
  · intro α β r l c i r2 l2 c2 i2 h
    simp [LockableType.eq, LockableType.hashOf, LockableType.init, h]
  · intro α β x y hx hy hr
    simp [LockableType.eq, LockableType.hashOf, LockableType.lock, hx, hy, hr]

/-- Witness for C10 at concrete inputs: `sampleValue` and `sampleOther` are
distinct while unlocked (distinct identity tokens 5 and 6) and equal once
locked (both render to the same text) although their concrete types differ. -/
theorem claim_C10_witness :
    ((5 : Nat) ≠ 6 ∧
      sampleValue.eq (LockableType.Operand.lockable sampleOther) =
        Except.ok false) ∧
    (sampleValue.locked = false ∧ sampleOther.locked = false ∧
      sampleValue.render sampleValue.content =
        sampleOther.render sampleOther.content ∧
      sampleValue.lock.eq (LockableType.Operand.lockable sampleOther.lock) =
        Except.ok true) :=
  ⟨⟨by decide,
    claim_C10.2.1 (fun s => s) String.length "ab" 5 (fun _ => "ab")
      (fun _ => 2) 0 6 (by decide)⟩,
   ⟨rfl, rfl, rfl,
    claim_C10.2.2 sampleValue sampleOther rfl rfl rfl⟩⟩

/-- The production-assembly loop appends, after the accumulator's symbols,
exactly the symbol children in order. -/
theorem production_loop_symbols (children : List Child) (acc : Production) :
    (List.foldl ChomskyGrammarTreeTransformer.productionStep acc children).symbols =
      acc.symbols ++ children.filterMap
        (fun c =>
          match c with
          | Child.symbol s => some s
          | _ => none) := by
  induction children generalizing acc with
  | nil => simp
  | cons c cs ih =>
    cases c with
    | token t =>
      simpa [ChomskyGrammarTreeTransformer.productionStep] using ih acc
    | production p =>
      simpa [ChomskyGrammarTreeTransformer.productionStep] using ih acc
    | symbol s =>
      simp only [List.foldl_cons, List.filterMap_cons,
        ChomskyGrammarTreeTransformer.productionStep]
      rw [ih (acc.add s)]
      simp [Production.add]

/-- The production-assembly loop never flips the `locked` flag. -/
theorem production_loop_locked (children : List Child) (acc : Production) :
    (List.foldl ChomskyGrammarTreeTransformer.productionStep acc children).locked =
      acc.locked := by
  induction children generalizing acc with
  | nil => rfl
  | cons c cs ih =>
    cases c with
    | token t =>
      simpa [ChomskyGrammarTreeTransformer.productionStep] using ih acc
    | production p =>
      simpa [ChomskyGrammarTreeTransformer.productionStep] using ih acc
    | symbol s =>
      simp only [List.foldl_cons, ChomskyGrammarTreeTransformer.productionStep]
      rw [ih (acc.add s)]
      rfl

open ChomskyGrammarTreeTransformer in
/-- Claim C2: every literal meta-character handler resolves non-empty literal
token text verbatim into the `Terminal` payload, and an empty child list into
the fixed one-character default of its tag — `epsilon` defaulting to `"&"`,
`quote` to `"'"`, and so on through the whole defaults table; each handler is
`_parse_symbol` at its tag's default. -/
theorem claim_C2 :
    (∀ (tokens : List String) (default : String), tokens ≠ [] →
      parseSymbol tokens default = Symbol.terminal (String.join tokens)) ∧
    (∀ (text default : String),
      parseSymbol [text] default = Symbol.terminal text) ∧
    (∀ default : String, parseSymbol [] default = Symbol.terminal default) ∧
    epsilon = (parseSymbol · "&") ∧
    quote = (parseSymbol · "'") ∧
    minus = (parseSymbol · "-") ∧
    plus = (parseSymbol · "+") ∧
    star = (parseSymbol · "*") ∧
    comma = (parseSymbol · ",") ∧
    colon = (parseSymbol · ":") ∧
    dot = (parseSymbol · ".") ∧
    double_quote = (parseSymbol · "\"") ∧
    percentage = (parseSymbol · "%") ∧
    dollar = (parseSymbol · "$") ∧
    at_sign = (parseSymbol · "@") ∧
    sharp = (parseSymbol · "#") ∧
    exclamation = (parseSymbol · "!") ∧
    backtick = (parseSymbol · "`") ∧
    tick = (parseSymbol · "´") ∧
    caret = (parseSymbol · "^") ∧
    tilde = (parseSymbol · "~") ∧
    question = (parseSymbol · "?") ∧
    equals = (parseSymbol · "=") ∧
    semicolon = (parseSymbol · ";") ∧
    slash = (parseSymbol · "/") ∧
    backslash = (parseSymbol · "\\") ∧
    open_paren = (parseSymbol · "(") ∧
    close_paren = (parseSymbol · ")") ∧
    open_bracket = (parseSymbol · "[") ∧
    close_bracket = (parseSymbol · "]") ∧
    open_brace = (parseSymbol · "\x7b") ∧
    close_brace = (parseSymbol · "\x7d") := by
  refine ⟨?_, ?_, ?_, rfl, rfl, rfl, rfl, rfl, rfl, rfl, rfl, rfl, rfl, rfl,
    rfl, rfl, rfl, rfl, rfl, rfl, rfl, rfl, rfl, rfl, rfl, rfl, rfl, rfl,
    rfl, rfl, rfl, rfl⟩
  · intro tokens default h
    simp [parseSymbol, h]
  · intro text default
    simp [parseSymbol, String.join]
  · intro default
    rfl

open ChomskyGrammarTreeTransformer in
/-- Witness for C2 at concrete inputs: `epsilon` with no literal token text
yields `Terminal("&")`, and a handler receiving the literal text `"'"` yields
exactly `Terminal("'")`. -/
theorem claim_C2_witness :
    ChomskyGrammarTreeTransformer.epsilon [] = Symbol.terminal "&" ∧
    ChomskyGrammarTreeTransformer.quote ["'"] = Symbol.terminal "'" ∧
    (["'"] ≠ ([] : List String) ∧
      parseSymbol ["'"] "x" = Symbol.terminal (String.join ["'"])) :=
  ⟨claim_C2.2.2.1 "&",
   (claim_C2.2.2.2.2.1 ▸ claim_C2.2.1 "'" "'" : _),
   ⟨by decide, claim_C2.1 ["'"] "x" (by decide)⟩⟩

open ChomskyGrammarTreeTransformer in
/-- Claim C3: the `production` handler returns a new, still-unlocked
`Production` holding, in left-to-right order, exactly the children that are a
`Terminal` or a `NonTerminal`; any other child is skipped without an error
(the handler is total), and an empty child list yields the empty
`Production`. -/
theorem claim_C3 (children : List Child) :
    (production children).locked = false ∧
    (production children).symbols =
      children.filterMap
        (fun c =>
          match c with
          | Child.symbol s => some s
          | _ => none) ∧
    production [] = Production.empty := by
  refine ⟨?_, ?_, rfl⟩
  · exact production_loop_locked children Production.empty
  · simpa using production_loop_symbols children Production.empty

/-- Witness for C3 at a concrete input: a token child and an already-built
production child are skipped, the two symbols are kept in order, and the
result is unlocked. -/
theorem claim_C3_witness :
    (ChomskyGrammarTreeTransformer.production
      [Child.token "->", Child.symbol (Symbol.terminal "a"),
       Child.production Production.empty,
       Child.symbol (Symbol.nonTerminal "A")]).locked = false ∧
    (ChomskyGrammarTreeTransformer.production
      [Child.token "->", Child.symbol (Symbol.terminal "a"),
       Child.production Production.empty,
       Child.symbol (Symbol.nonTerminal "A")]).symbols =
      [Symbol.terminal "a", Symbol.nonTerminal "A"] :=
  ⟨(claim_C3 _).1, (claim_C3 _).2.1⟩

/-- An association-list lookup misses every key absent from the key list. -/
theorem lookup_eq_none_of_not_mem {β : Type} (tag : String)
    (l : List (String × β)) (h : tag ∉ l.map Prod.fst) :
    l.lookup tag = none := by
  induction l with
  | nil => rfl
  | cons p ps ih =>
    obtain ⟨k, v⟩ := p
    simp only [List.map_cons, List.mem_cons, not_or] at h
    have hk : (tag == k) = false := beq_eq_false_iff_ne.mpr h.1
    simp [List.lookup, hk, ih h.2]

/-- The keys of the handler table are exactly the handler method names. -/
theorem tagHandlerList_keys : tagHandlerList.map Prod.fst = recognizedTags :=
  rfl

/-- A tag outside the transformer's method table has no `tagTable` entry. -/
theorem tagTable_eq_none (tag : String) (h : tag ∉ recognizedTags) :
    tagTable tag = none := by
  rw [← tagHandlerList_keys] at h
  exact lookup_eq_none_of_not_mem tag tagHandlerList h

/-- Claim C4: a tree node whose tag is not one of the transformer's handler
methods has no entry in the tag table, and transforming it yields the
`UnrecognizedTagError` for that tag and nothing else — no partial `Production`
or `Symbol` is produced (the error constructor carries only the offending
tag). -/
theorem claim_C4 (tag : String) (children : List Child)
    (h : tag ∉ recognizedTags) :
    tagTable tag = none ∧
    transformNode tag children =
      Except.error (TransformError.unrecognizedTag tag) := by
  have hnone := tagTable_eq_none tag h
  exact ⟨hnone, by simp [transformNode, hnone]⟩

/-- Witness for C4 at a concrete unrecognized tag. -/
theorem claim_C4_witness :
    "intermediary" ∉ recognizedTags ∧
    transformNode "intermediary" [] =
      Except.error (TransformError.unrecognizedTag "intermediary") :=
  ⟨by decide, (claim_C4 "intermediary" [] (by decide)).2⟩

open ChomskyGrammarTreeTransformer in
/-- Claim C8: the `terminal` and `non_terminal` handlers each return exactly
one `Symbol` of the matching variant whose payload is the concatenation, in
child order with no separator, of the children's string renderings; three
single-character children `"a"`, `"b"`, `"c"` under the `terminal` tag yield
the single `Terminal("abc")`. -/
theorem claim_C8 (children : List Child) :
    terminal children =
      Symbol.terminal (String.join (children.map Child.str)) ∧
    non_terminal children =
      Symbol.nonTerminal (String.join (children.map Child.str)) ∧
    terminal [Child.token "a", Child.token "b", Child.token "c"] =
      Symbol.terminal "abc" :=
  ⟨rfl, rfl, by decide⟩

end ContextFreeGrammars
